import Mathlib

/-!
Verification of the serverless JS runtime (src/main.rs).

The development shallowly embeds the core of main.rs:

* the per-function sqlite key/value store (table `kv (key unique, value)`),
  modelled as an association list from keys to stored values;
* the deno ops `op_kv_set`, `op_kv_get`, `op_log` together with the JS
  bootstrap globals `set`, `get`, `console.log` (RUNTIME_BOOTSTRAP);
* script evaluation (`run_js`): a small expression language covering the
  fragment of JS the bindings and the spec exercise, with expression-value
  semantics (value of the last top-level expression);
* the HTTP handlers `handle_fn_submit` / `handle_fn_execute`, the
  `FunctionName` extractor, the `AppError` type and its `into_response`.

Modelling conventions, each used where the source forces it:

* The sqlite `value` column holds TEXT produced exclusively by
  `JSON.stringify` in the bootstrap; the model stores the parsed canonical
  JSON structure instead of its text (the two are in bijection via the
  canonical printer), so no character-level JSON parser is needed.
* The registry stores the script as an AST (`Script`) rather than source
  text: the embedding does not include a JS text parser, and no claim
  depends on parse failures.
* V8 numbers are IEEE doubles; the model covers the integer fragment the
  spec exercises (serde_json prints integral numbers without a decimal
  point, so the observable text agrees on this fragment).
* Mutex poisoning is modelled as a boolean flag on each lock: `true` means
  a previous holder panicked, and locking reports the standard poison
  message instead of returning the contents.
-/

namespace ServerlessRuntime

/-- Canonical JSON values, the image of serde_json::Value restricted to the
integer-number fragment. This is the representation crossing the sandbox
boundary (results and stored kv values). -/
inductive Json where
  | null
  | bool (b : Bool)
  | num (n : Int)
  | str (s : String)
  | arr (items : List Json)
  | obj (fields : List (String × Json))
deriving Repr

/-- Lower-case hex digit, as used by the serde_json string escaper. -/
def hexDigit (n : Nat) : Char :=
  if n < 10 then Char.ofNat (48 + n) else Char.ofNat (87 + n)

/-- Escaping of one character inside a JSON string literal, following
serde_json: quote, backslash, the short control escapes, and \u00XX for the
remaining control characters. -/
def escapeChar (c : Char) : String :=
  if c = '"' then "\\\""
  else if c = '\\' then "\\\\"
  else if c = '\x08' then "\\b"
  else if c = '\x0c' then "\\f"
  else if c = '\n' then "\\n"
  else if c = '\r' then "\\r"
  else if c = '\t' then "\\t"
  else if c.toNat < 32 then
    "\\u00" ++ String.mk [hexDigit (c.toNat / 16), hexDigit (c.toNat % 16)]
  else String.mk [c]

/-- Escape a whole string for inclusion in JSON text. -/
def escapeString (s : String) : String :=
  s.toList.foldl (fun acc c => acc ++ escapeChar c) ""

mutual
/-- Compact textual form of a canonical JSON value, following
serde_json::Value::to_string, which run_js applies to the deserialized
result before returning it over HTTP. -/
def Json.print : Json → String
  | .null => "null"
  | .bool true => "true"
  | .bool false => "false"
  | .num n => toString n
  | .str s => "\"" ++ escapeString s ++ "\""
  | .arr items => "[" ++ Json.printList items ++ "]"
  | .obj fields => "\x7b" ++ Json.printObj fields ++ "\x7d"

/-- Comma-separated rendering of JSON array elements. -/
def Json.printList : List Json → String
  | [] => ""
  | [j] => j.print
  | j :: rest => j.print ++ "," ++ Json.printList rest

/-- Comma-separated rendering of JSON object fields. -/
def Json.printObj : List (String × Json) → String
  | [] => ""
  | [(k, v)] => "\"" ++ escapeString k ++ "\":" ++ v.print
  | (k, v) :: rest => "\"" ++ escapeString k ++ "\":" ++ v.print ++ "," ++ Json.printObj rest
end

/-- Script-level runtime values: the V8 values a modelled script can
produce. `undef` is the JS undefined value. `func` stands for any function
value. `cyclic` is an opaque marker for a value graph containing a circular
reference: such a graph is not a finite tree, so the model represents it by
this marker, with the serializers failing on it exactly as V8s
JSON.stringify (throws TypeError) and serde_v8 (conversion failure) do. -/
inductive JsValue where
  | undef
  | null
  | bool (b : Bool)
  | num (n : Int)
  | str (s : String)
  | arr (items : List JsValue)
  | obj (fields : List (String × JsValue))
  | func
  | cyclic
deriving Repr

/-- Message of the std::sync::PoisonError, produced when locking a mutex
whose previous holder panicked. -/
def poisonMsg : String := "poisoned lock: another task failed inside"

/-- Message of the TypeError thrown by JSON.stringify on a circular
structure. -/
def circularMsg : String := "Converting circular structure to JSON"

/-- Message of the op-argument conversion failure when JSON.stringify
returned undefined (top-level undefined or function value) and opSync then
fails to deserialize the undefined argument as a String. -/
def stringifyUndefMsg : String := "op_kv_set argument is not a string"

mutual
/-- Semantics of JSON.stringify at the structured level (the model stores
the parsed form of the produced text). Top-level undefined or function
values make stringify return undefined (`none`); a circular reference makes
it throw (`error`); inside arrays such elements become null and inside
objects such fields are dropped, as in JS. -/
def jsonStringify : JsValue → Except String (Option Json)
  | .undef => .ok none
  | .func => .ok none
  | .cyclic => .error circularMsg
  | .null => .ok (some .null)
  | .bool b => .ok (some (.bool b))
  | .num n => .ok (some (.num n))
  | .str s => .ok (some (.str s))
  | .arr items =>
    match jsonStringifyList items with
    | .error e => .error e
    | .ok js => .ok (some (.arr js))
  | .obj fields =>
    match jsonStringifyObj fields with
    | .error e => .error e
    | .ok fs => .ok (some (.obj fs))

/-- Array elements under JSON.stringify: non-serializable elements become
null, circular references propagate the thrown error. -/
def jsonStringifyList : List JsValue → Except String (List Json)
  | [] => .ok []
  | v :: rest =>
    match jsonStringify v with
    | .error e => .error e
    | .ok o =>
      match jsonStringifyList rest with
      | .error e => .error e
      | .ok js => .ok (o.getD .null :: js)

/-- Object fields under JSON.stringify: fields whose value is
non-serializable are dropped, circular references propagate the error. -/
def jsonStringifyObj : List (String × JsValue) → Except String (List (String × Json))
  | [] => .ok []
  | (k, v) :: rest =>
    match jsonStringify v with
    | .error e => .error e
    | .ok o =>
      match jsonStringifyObj rest with
      | .error e => .error e
      | .ok fs =>
        match o with
        | some j => .ok ((k, j) :: fs)
        | none => .ok fs
end

mutual
/-- Semantics of JSON.parse applied to canonical JSON text, at the
structured level: the canonical value embeds directly into a runtime
value. -/
def jsonParse : Json → JsValue
  | .null => .null
  | .bool b => .bool b
  | .num n => .num n
  | .str s => .str s
  | .arr items => .arr (jsonParseList items)
  | .obj fields => .obj (jsonParseObj fields)

/-- JSON.parse on array elements. -/
def jsonParseList : List Json → List JsValue
  | [] => []
  | j :: rest => jsonParse j :: jsonParseList rest

/-- JSON.parse on object fields. -/
def jsonParseObj : List (String × Json) → List (String × JsValue)
  | [] => []
  | (k, j) :: rest => (k, jsonParse j) :: jsonParseObj rest
end

mutual
/-- Semantics of serde_v8::from_v8::<serde_json::Value>, used by run_js on
the last evaluated value: null and undefined map to Null, primitives and
finite arrays/objects convert recursively, and function values or circular
structures fail with a conversion error. -/
def toJson : JsValue → Except String Json
  | .undef => .ok .null
  | .null => .ok .null
  | .bool b => .ok (.bool b)
  | .num n => .ok (.num n)
  | .str s => .ok (.str s)
  | .func => .error "v8::Function is not deserializable"
  | .cyclic => .error "circular v8 value is not deserializable"
  | .arr items =>
    match toJsonList items with
    | .error e => .error e
    | .ok js => .ok (.arr js)
  | .obj fields =>
    match toJsonObj fields with
    | .error e => .error e
    | .ok fs => .ok (.obj fs)

/-- serde_v8 conversion of array elements. -/
def toJsonList : List JsValue → Except String (List Json)
  | [] => .ok []
  | v :: rest =>
    match toJson v with
    | .error e => .error e
    | .ok j =>
      match toJsonList rest with
      | .error e => .error e
      | .ok js => .ok (j :: js)

/-- serde_v8 conversion of object fields. -/
def toJsonObj : List (String × JsValue) → Except String (List (String × Json))
  | [] => .ok []
  | (k, v) :: rest =>
    match toJson v with
    | .error e => .error e
    | .ok j =>
      match toJsonObj rest with
      | .error e => .error e
      | .ok fs => .ok ((k, j) :: fs)
end

mutual
/-- Whether a runtime value contains a non-representable part: a function
value or a circular reference anywhere inside it. -/
def containsBad : JsValue → Bool
  | .func => true
  | .cyclic => true
  | .arr items => containsBadList items
  | .obj fields => containsBadObj fields
  | _ => false

/-- Non-representable part inside some array element. -/
def containsBadList : List JsValue → Bool
  | [] => false
  | v :: rest => containsBad v || containsBadList rest

/-- Non-representable part inside some object field. -/
def containsBadObj : List (String × JsValue) → Bool
  | [] => false
  | (_, v) :: rest => containsBad v || containsBadObj rest
end

/-- Association-list lookup, modelling both the HashMap registry lookup and
the sqlite point query `select value from kv where key = ?1`. -/
def alookup {α : Type} : List (String × α) → String → Option α
  | [], _ => none
  | (k, v) :: rest, key => if k = key then some v else alookup rest key

/-- Association-list upsert, modelling both HashMap::insert and the sqlite
statement `replace into kv (key, value) values (?1, ?2)`: the unique key
constraint makes the write replace any prior row. -/
def aupsert {α : Type} : List (String × α) → String → α → List (String × α)
  | [], key, val => [(key, val)]
  | (k, v) :: rest, key, val =>
    if k = key then (key, val) :: rest else (k, v) :: aupsert rest key val

/-- Contents of one sqlite kv table: stored values are canonical JSON (the
TEXT column always holds JSON.stringify output, represented structurally). -/
abbrev KvTable := List (String × Json)

/-- The filesystem of per-function database files, name.db each. -/
abbrev Files := List (String × KvTable)

/-- Model of op_kv_set from main.rs: lock the shared connection (a poisoned
lock is reported as an error, whose message deno rethrows inside the
sandbox), then run the replace-into upsert. -/
def op_kv_set (dbPoisoned : Bool) (key : String) (value : Json) (tbl : KvTable) :
    Except String KvTable :=
  if dbPoisoned then .error poisonMsg
  else .ok (aupsert tbl key value)

/-- Model of op_kv_get from main.rs: lock the shared connection (a poisoned
lock is reported as an error), then run the point query; a missing key
yields none, not an error. -/
def op_kv_get (dbPoisoned : Bool) (key : String) (tbl : KvTable) :
    Except String (Option Json) :=
  if dbPoisoned then .error poisonMsg
  else .ok (alookup tbl key)

/-- Model of op_log from main.rs: emits the message prefixed with the
function name to the log stream; no sandbox-visible effect. -/
def op_log (fnName msg : String) : String :=
  "[" ++ fnName ++ "]: " ++ msg

/-- Scripts of the modelled JS fragment: value literals (any constructible
runtime value), JS addition, the bootstrap globals set/get (with a string
literal key, as in the spec examples), console.log, and an uncaught throw.
A program is a list of expression statements. -/
inductive Expr where
  | litv (v : JsValue)
  | add (e1 e2 : Expr)
  | set (key : String) (e : Expr)
  | get (key : String)
  | log (e : Expr)
  | throwErr (msg : String)
deriving Repr

/-- Program: a sequence of top-level expression statements. -/
abbrev Script := List Expr

/-- JS addition on the modelled fragment: number addition and string
concatenation. Mixed-type coercions fall outside the modelled fragment and
are reported as an evaluation error (no claim exercises them). -/
def jsAdd : JsValue → JsValue → Except String JsValue
  | .num a, .num b => .ok (.num (a + b))
  | .str a, .str b => .ok (.str (a ++ b))
  | _, _ => .error "addition outside the modelled fragment"

/-- One evaluation step over the kv table of the invoked function.
`dbPoisoned` is the state of the storage-handle mutex captured by the ops.
The bootstrap global set is
`(key, value) => (opSync(op_kv_set, key, JSON.stringify(value)), value)`:
stringify runs first (throwing on circular structures), an undefined
stringify result fails op-argument conversion, the op locks the connection
and upserts, and the comma expression returns the original value. The
bootstrap global get is `(key) => JSON.parse(opSync(op_kv_get, key))`: a
missing key gives null through JSON.parse(null). An error raised by an op
is thrown inside the sandbox; uncaught, it aborts evaluation, with writes
already performed kept (sqlite writes are immediate). -/
def evalExpr (dbPoisoned : Bool) : Expr → KvTable → Except String JsValue × KvTable
  | .litv v, tbl => (.ok v, tbl)
  | .add e1 e2, tbl =>
    match evalExpr dbPoisoned e1 tbl with
    | (.error m, tbl1) => (.error m, tbl1)
    | (.ok v1, tbl1) =>
      match evalExpr dbPoisoned e2 tbl1 with
      | (.error m, tbl2) => (.error m, tbl2)
      | (.ok v2, tbl2) =>
        match jsAdd v1 v2 with
        | .error m => (.error m, tbl2)
        | .ok v => (.ok v, tbl2)
  | .set key e, tbl =>
    match evalExpr dbPoisoned e tbl with
    | (.error m, tbl1) => (.error m, tbl1)
    | (.ok v, tbl1) =>
      match jsonStringify v with
      | .error m => (.error m, tbl1)
      | .ok none => (.error stringifyUndefMsg, tbl1)
      | .ok (some j) =>
        match op_kv_set dbPoisoned key j tbl1 with
        | .error m => (.error m, tbl1)
        | .ok tbl2 => (.ok v, tbl2)
  | .get key, tbl =>
    match op_kv_get dbPoisoned key tbl with
    | .error m => (.error m, tbl)
    | .ok none => (.ok .null, tbl)
    | .ok (some j) => (.ok (jsonParse j), tbl)
  | .log e, tbl =>
    match evalExpr dbPoisoned e tbl with
    | (.error m, tbl1) => (.error m, tbl1)
    | (.ok _, tbl1) => (.ok .undef, tbl1)
  | .throwErr msg, tbl => (.error msg, tbl)

/-- Evaluation of a whole program with expression-value semantics: the
result is the value of the last top-level expression statement (undefined
for an empty program), and an uncaught error aborts the remainder while
keeping the storage writes already performed. -/
def evalScript (dbPoisoned : Bool) : Script → KvTable → Except String JsValue × KvTable
  | [], tbl => (.ok .undef, tbl)
  | [e], tbl => evalExpr dbPoisoned e tbl
  | e :: rest, tbl =>
    match evalExpr dbPoisoned e tbl with
    | (.error m, tbl1) => (.error m, tbl1)
    | (.ok _, tbl1) => evalScript dbPoisoned rest tbl1

/-- Shared storage handle: Arc<Mutex<Connection>>. The boolean is the
poison state of the mutex; `file` is the database file the connection is
open on. -/
structure DBHandle where
  poisoned : Bool
  file : String
deriving Repr

/-- Errors bubbling up to the HTTP layer (enum AppError in main.rs). Each
constructor carries the display form of the wrapped error. -/
inductive AppError where
  | SqliteError (msg : String)
  | LockPoisoned (msg : String)
  | UnknownFunction (name : String)
  | JsError (msg : String)
  | DenoError (msg : String)
  | V8SerialisationError (msg : String)
deriving Repr

/-- Shared application state: the registry mutex poison flag, the registry
mapping a function name to its stored script and storage handle (AppState
in main.rs), and the database files on disk. Files live outside the
registry entries so that a handle replaced on re-submission still reaches
the same persistent data. -/
structure AppState where
  regPoisoned : Bool
  registry : List (String × Script × DBHandle)
  files : Files
deriving Repr

/-- Model of run_js from main.rs: a fresh runtime is constructed for this
invocation (no state enters evalScript other than the bindings and the
persistent table, which models the fresh-isolate guarantee), the script is
evaluated, and the last value is converted by serde_v8 and printed with
serde_json. A thrown script error becomes AppError.JsError; a conversion
failure becomes AppError.V8SerialisationError. Storage writes performed
before a failure persist. -/
def run_js (name : String) (body : Script) (db : DBHandle) (files : Files) :
    Except AppError String × Files :=
  let tbl := (alookup files db.file).getD []
  match evalScript db.poisoned body tbl with
  | (.error m, tblFin) =>
    (.error (.JsError m), aupsert files db.file tblFin)
  | (.ok v, tblFin) =>
    match toJson v with
    | .error m => (.error (.V8SerialisationError m), aupsert files db.file tblFin)
    | .ok j => (.ok (Json.print j), aupsert files db.file tblFin)

/-- Model of handle_fn_submit from main.rs: derive the database file name,
open the connection (creating the file when absent), run the idempotent
`create table if not exists kv (key unique, value)`, then lock the registry
and insert (or replace) the entry with the body and a fresh handle. The
file creation precedes the registry lock, as in the source. -/
def handle_fn_submit (st : AppState) (name : String) (body : Script) :
    Except AppError Unit × AppState :=
  let db_file := name ++ ".db"
  let files1 := if (alookup st.files db_file).isSome then st.files
                else aupsert st.files db_file []
  if st.regPoisoned then
    (.error (.LockPoisoned poisonMsg), { st with files := files1 })
  else
    (.ok (), { st with
      files := files1,
      registry := aupsert st.registry name (body, DBHandle.mk false db_file) })

/-- Model of handle_fn_execute from main.rs: lock the registry, look the
name up (absent gives UnknownFunction), clone the body and handle, release
the lock, and run the script. -/
def handle_fn_execute (st : AppState) (name : String) :
    Except AppError String × AppState :=
  if st.regPoisoned then (.error (.LockPoisoned poisonMsg), st)
  else
    match alookup st.registry name with
    | none => (.error (.UnknownFunction name), st)
    | some (fn_body, db) =>
      match run_js name fn_body db st.files with
      | (r, filesFin) => (r, { st with files := filesFin })

/-- Model of impl IntoResponse for AppError: a JsError is reported to the
caller with its message (a plain-string 200 response), UnknownFunction is a
400 naming the function, and every other kind is logged internally and
reported only as an opaque 500. -/
def into_response : AppError → Nat × String
  | .JsError m => (200, "error evaluating function: " ++ m)
  | .UnknownFunction e => (400, "unknown function: " ++ e)
  | .SqliteError _ => (500, "internal server error")
  | .LockPoisoned _ => (500, "internal server error")
  | .DenoError _ => (500, "internal server error")
  | .V8SerialisationError _ => (500, "internal server error")

/-- Rust char::is_ascii_alphabetic. -/
def is_ascii_alphabetic (c : Char) : Bool :=
  ('a' ≤ c && c ≤ 'z') || ('A' ≤ c && c ≤ 'Z')

/-- Model of the FunctionName extractor (FromRequestParts in main.rs): the
path segment is rejected with a 400 response when any character is not an
ASCII letter, and accepted unchanged otherwise. -/
def from_request_parts (name : String) : Except (Nat × String) String :=
  if name.toList.any (fun c => !(is_ascii_alphabetic c)) then
    .error (400, "invalid function name: \"" ++ name ++
      "\", only a-z and A-Z characters are allowed")
  else .ok name

/-- Full POST /fn/:name request: extractor then handler, a successful
submission answering 200 with an empty body. -/
def http_submit (st : AppState) (name : String) (body : Script) :
    (Nat × String) × AppState :=
  match from_request_parts name with
  | .error resp => (resp, st)
  | .ok n =>
    match handle_fn_submit st n body with
    | (.ok _, stFin) => ((200, ""), stFin)
    | (.error e, stFin) => (into_response e, stFin)

/-- Full GET /fn/:name request: extractor then handler, a successful
execution answering 200 with the result text. -/
def http_execute (st : AppState) (name : String) : (Nat × String) × AppState :=
  match from_request_parts name with
  | .error resp => (resp, st)
  | .ok n =>
    match handle_fn_execute st n with
    | (.ok s, stFin) => ((200, s), stFin)
    | (.error e, stFin) => (into_response e, stFin)

/-! Helper lemmas about the association-list store, the canonical
serializers, and the handlers. -/

theorem alookup_aupsert_self {α : Type} (l : List (String × α)) (k : String) (v : α) :
    alookup (aupsert l k v) k = some v := by
  induction l with
  | nil => simp [aupsert, alookup]
  | cons hd tl ih =>
    obtain ⟨k0, v0⟩ := hd
    by_cases h : k0 = k
    · simp [aupsert, h, alookup]
    · simp [aupsert, h, alookup, ih]

mutual
theorem toJson_jsonParse : (j : Json) → toJson (jsonParse j) = .ok j
  | .null => rfl
  | .bool b => rfl
  | .num n => rfl
  | .str s => rfl
  | .arr items => by simp [jsonParse, toJson, toJsonList_jsonParseList items]
  | .obj fields => by simp [jsonParse, toJson, toJsonObj_jsonParseObj fields]

theorem toJsonList_jsonParseList : (l : List Json) → toJsonList (jsonParseList l) = .ok l
  | [] => rfl
  | j :: rest => by
    simp [jsonParseList, toJsonList, toJson_jsonParse j, toJsonList_jsonParseList rest]

theorem toJsonObj_jsonParseObj :
    (l : List (String × Json)) → toJsonObj (jsonParseObj l) = .ok l
  | [] => rfl
  | (k, j) :: rest => by
    simp [jsonParseObj, toJsonObj, toJson_jsonParse j, toJsonObj_jsonParseObj rest]
end

mutual
theorem toJson_containsBad : (v : JsValue) → containsBad v = true → ∃ m, toJson v = .error m
  | .undef, h => by simp [containsBad] at h
  | .null, h => by simp [containsBad] at h
  | .bool _, h => by simp [containsBad] at h
  | .num _, h => by simp [containsBad] at h
  | .str _, h => by simp [containsBad] at h
  | .func, _ => ⟨_, rfl⟩
  | .cyclic, _ => ⟨_, rfl⟩
  | .arr items, h => by
    obtain ⟨m, hm⟩ := toJsonList_containsBadList items (by simpa [containsBad] using h)
    exact ⟨m, by simp [toJson, hm]⟩
  | .obj fields, h => by
    obtain ⟨m, hm⟩ := toJsonObj_containsBadObj fields (by simpa [containsBad] using h)
    exact ⟨m, by simp [toJson, hm]⟩

theorem toJsonList_containsBadList :
    (l : List JsValue) → containsBadList l = true → ∃ m, toJsonList l = .error m
  | [], h => by simp [containsBadList] at h
  | v :: rest, h => by
    rcases Bool.or_eq_true_iff.mp (by simpa [containsBadList] using h) with hv | hrest
    · obtain ⟨m, hm⟩ := toJson_containsBad v hv
      exact ⟨m, by simp [toJsonList, hm]⟩
    · obtain ⟨m, hm⟩ := toJsonList_containsBadList rest hrest
      cases htv : toJson v with
      | error e => exact ⟨e, by simp [toJsonList, htv]⟩
      | ok j => exact ⟨m, by simp [toJsonList, htv, hm]⟩

theorem toJsonObj_containsBadObj :
    (l : List (String × JsValue)) → containsBadObj l = true → ∃ m, toJsonObj l = .error m
  | [], h => by simp [containsBadObj] at h
  | (k, v) :: rest, h => by
    rcases Bool.or_eq_true_iff.mp (by simpa [containsBadObj] using h) with hv | hrest
    · obtain ⟨m, hm⟩ := toJson_containsBad v hv
      exact ⟨m, by simp [toJsonObj, hm]⟩
    · obtain ⟨m, hm⟩ := toJsonObj_containsBadObj rest hrest
      cases htv : toJson v with
      | error e => exact ⟨e, by simp [toJsonObj, htv]⟩
      | ok j => exact ⟨m, by simp [toJsonObj, htv, hm]⟩
end

theorem from_request_parts_valid (name : String)
    (h : name.toList.all is_ascii_alphabetic = true) :
    from_request_parts name = .ok name := by
  have hany : name.toList.any (fun c => !(is_ascii_alphabetic c)) = false := by
    rw [List.any_eq_false]
    intro c hc
    simp [List.all_eq_true.mp h c hc]
  unfold from_request_parts
  rw [hany]
  rfl

theorem handle_fn_submit_ok (st : AppState) (name : String) (s : Script)
    (hreg : st.regPoisoned = false) :
    handle_fn_submit st name s =
      (.ok (), { st with
        files := if (alookup st.files (name ++ ".db")).isSome then st.files
                 else aupsert st.files (name ++ ".db") [],
        registry := aupsert st.registry name (s, DBHandle.mk false (name ++ ".db")) }) := by
  simp [handle_fn_submit, hreg]

theorem alookup_open_getD (files : Files) (f : String) :
    (alookup (if (alookup files f).isSome then files else aupsert files f []) f).getD []
      = (alookup files f).getD [] := by
  cases h : alookup files f with
  | none => simp [h, alookup_aupsert_self]
  | some t => simp [h]

theorem alookup_open_isSome (files : Files) (f : String) :
    (alookup (if (alookup files f).isSome then files else aupsert files f []) f).isSome
      = true := by
  cases h : alookup files f with
  | none => simp [h, alookup_aupsert_self]
  | some t => simp [h]

theorem run_js_files (name : String) (s : Script) (db : DBHandle) (files : Files) :
    (run_js name s db files).2
      = aupsert files db.file
          (evalScript db.poisoned s ((alookup files db.file).getD [])).2 := by
  unfold run_js
  rcases h : evalScript db.poisoned s ((alookup files db.file).getD []) with ⟨r, tblFin⟩
  cases r with
  | error m => simp [h]
  | ok v => cases htv : toJson v <;> simp [h, htv]

theorem run_js_ok (name : String) (s : Script) (db : DBHandle) (files : Files)
    (v : JsValue) (j : Json) (tblFin : KvTable)
    (heval : evalScript db.poisoned s ((alookup files db.file).getD []) = (.ok v, tblFin))
    (hser : toJson v = .ok j) :
    run_js name s db files = (.ok (Json.print j), aupsert files db.file tblFin) := by
  simp [run_js, heval, hser]

theorem http_execute_state (st : AppState) (name : String) (s : Script) (db : DBHandle)
    (hname : name.toList.all is_ascii_alphabetic = true)
    (hreg : st.regPoisoned = false)
    (hlook : alookup st.registry name = some (s, db)) :
    (http_execute st name).2 = { st with files := (run_js name s db st.files).2 } := by
  have hfr := from_request_parts_valid name hname
  rcases hr : run_js name s db st.files with ⟨r, ff⟩
  cases r <;> simp [http_execute, hfr, handle_fn_execute, hreg, hlook, hr]

theorem http_execute_ok (st : AppState) (name : String) (s : Script) (db : DBHandle)
    (res : String) (ff : Files)
    (hname : name.toList.all is_ascii_alphabetic = true)
    (hreg : st.regPoisoned = false)
    (hlook : alookup st.registry name = some (s, db))
    (hrun : run_js name s db st.files = (.ok res, ff)) :
    (http_execute st name).1 = (200, res) := by
  simp [http_execute, from_request_parts_valid name hname, handle_fn_execute, hreg,
    hlook, hrun]

theorem http_submit_existing (st : AppState) (name : String) (s : Script)
    (hname : name.toList.all is_ascii_alphabetic = true)
    (hreg : st.regPoisoned = false)
    (hfile : (alookup st.files (name ++ ".db")).isSome = true) :
    (http_submit st name s).2
      = { st with
          registry := aupsert st.registry name (s, DBHandle.mk false (name ++ ".db")) } := by
  simp [http_submit, from_request_parts_valid name hname,
    handle_fn_submit_ok st name s hreg, hfile]

/-! Claim theorems. -/

/-- C1: for every valid function name and every script source, a successful
submit of the source under the name followed by an execute of the name
returns the canonical textual value of the last top-level expression of the
source: whenever the script evaluates to a value that serde_v8 converts to
the canonical value j, the execute response is 200 with the compact text of
j. -/
theorem C1_submit_then_execute (st : AppState) (name : String) (s : Script)
    (v : JsValue) (j : Json) (tblFin : KvTable)
    (hname : name.toList.all is_ascii_alphabetic = true)
    (hreg : st.regPoisoned = false)
    (heval : evalScript false s ((alookup st.files (name ++ ".db")).getD [])
      = (.ok v, tblFin))
    (hser : toJson v = .ok j) :
    (http_execute (http_submit st name s).2 name).1 = (200, Json.print j) := by
  have hfr := from_request_parts_valid name hname
  have hsub := handle_fn_submit_ok st name s hreg
  simp only [http_submit, hfr, hsub]
  simp only [http_execute, hfr, handle_fn_execute, hreg, alookup_aupsert_self,
    run_js, alookup_open_getD, heval, hser]
  simp

/-- C1 witness: on the empty state, submitting the name hello with source
set(x, 1); get(x) + 1 and executing it answers 200 with body 2, the
canonical text of the last expression value. -/
theorem C1_submit_then_execute_witness :
    (http_execute
      (http_submit ⟨false, [], []⟩ "hello"
        [.set "x" (.litv (.num 1)), .add (.get "x") (.litv (.num 1))]).2
      "hello").1 = (200, "2") :=
  C1_submit_then_execute ⟨false, [], []⟩ "hello"
    [.set "x" (.litv (.num 1)), .add (.get "x") (.litv (.num 1))]
    (.num 2) (.num 2) [("x", .num 1)] rfl rfl rfl rfl

/-- C4: a name containing any character that is not an ASCII letter is
rejected by submit with the client-visible 400 validation response, and the
state is completely unchanged: no database file and no registry entry is
created. -/
theorem C4_invalid_name_no_side_effects (st : AppState) (name : String) (body : Script)
    (hbad : name.toList.any (fun c => !(is_ascii_alphabetic c)) = true) :
    http_submit st name body
      = ((400, "invalid function name: \"" ++ name ++
          "\", only a-z and A-Z characters are allowed"), st) := by
  unfold http_submit from_request_parts
  rw [hbad]
  rfl

/-- C4 witness: the name bad1 (digit inside) is rejected with the 400
validation message and the empty state stays empty. -/
theorem C4_invalid_name_no_side_effects_witness :
    http_submit ⟨false, [], []⟩ "bad1" []
      = ((400, "invalid function name: \"bad1\", only a-z and A-Z characters are allowed"),
         ⟨false, [], []⟩) :=
  C4_invalid_name_no_side_effects ⟨false, [], []⟩ "bad1" [] rfl

/-- C5: executing a name that is absent from the registry returns the
UnknownFunction error with the state unchanged (no registry, storage, or
runtime side effects), and into_response surfaces that error verbatim to
the caller as a 400 naming the function. -/
theorem C5_unknown_function (st : AppState) (name : String)
    (hreg : st.regPoisoned = false)
    (habsent : alookup st.registry name = none) :
    handle_fn_execute st name = (.error (.UnknownFunction name), st)
    ∧ into_response (.UnknownFunction name) = (400, "unknown function: " ++ name) := by
  constructor
  · simp [handle_fn_execute, hreg, habsent]
  · rfl

/-- C5 witness: executing hello on the empty registry yields
UnknownFunction hello, leaves the state unchanged, and the response is the
400 unknown-function message. -/
theorem C5_unknown_function_witness :
    handle_fn_execute ⟨false, [], []⟩ "hello"
      = (.error (.UnknownFunction "hello"), ⟨false, [], []⟩)
    ∧ into_response (.UnknownFunction "hello") = (400, "unknown function: hello") :=
  C5_unknown_function ⟨false, [], []⟩ "hello" rfl rfl

/-- C10: the empty function name passes validation vacuously (the check
only rejects when some character is not an ASCII letter), so both the
submit and the execute route accept the empty name as a FunctionName: an
empty-name submit succeeds, and an empty-name execute proceeds past
validation to the registry lookup. -/
theorem C10_empty_name_accepted :
    from_request_parts "" = .ok ""
    ∧ (http_submit ⟨false, [], []⟩ "" []).1 = (200, "")
    ∧ (http_execute ⟨false, [], []⟩ "").1 = (400, "unknown function: ") :=
  ⟨rfl, rfl, rfl⟩

/-- C3: re-submitting an already-submitted name succeeds, replaces the
source used by future executions (the registry now maps the name to the new
script and a fresh handle), and leaves the database files — in particular
every previously persisted key/value pair of that function — exactly as
they were, because schema setup is create-if-absent. -/
theorem C3_resubmit_preserves_storage (st : AppState) (name : String) (s2 : Script)
    (tbl : KvTable)
    (hreg : st.regPoisoned = false)
    (hfile : alookup st.files (name ++ ".db") = some tbl) :
    (handle_fn_submit st name s2).1 = .ok ()
    ∧ (handle_fn_submit st name s2).2.files = st.files
    ∧ alookup (handle_fn_submit st name s2).2.files (name ++ ".db") = some tbl
    ∧ alookup (handle_fn_submit st name s2).2.registry name
        = some (s2, DBHandle.mk false (name ++ ".db")) := by
  have hsub := handle_fn_submit_ok st name s2 hreg
  refine ⟨?_, ?_, ?_, ?_⟩ <;> simp [hsub, hfile, alookup_aupsert_self]

/-- C3 witness: re-submitting the registered name f, whose store already
holds the pair (a, 1), keeps the files untouched and repoints the registry
entry at the new source. -/
theorem C3_resubmit_preserves_storage_witness :
    (handle_fn_submit ⟨false, [("f", ([], ⟨false, "f.db"⟩))],
        [("f.db", [("a", Json.num 1)])]⟩ "f" [.get "a"]).1 = .ok ()
    ∧ (handle_fn_submit ⟨false, [("f", ([], ⟨false, "f.db"⟩))],
        [("f.db", [("a", Json.num 1)])]⟩ "f" [.get "a"]).2.files
        = [("f.db", [("a", Json.num 1)])]
    ∧ alookup (handle_fn_submit ⟨false, [("f", ([], ⟨false, "f.db"⟩))],
        [("f.db", [("a", Json.num 1)])]⟩ "f" [.get "a"]).2.files ("f" ++ ".db")
        = some [("a", Json.num 1)]
    ∧ alookup (handle_fn_submit ⟨false, [("f", ([], ⟨false, "f.db"⟩))],
        [("f.db", [("a", Json.num 1)])]⟩ "f" [.get "a"]).2.registry "f"
        = some ([.get "a"], DBHandle.mk false ("f" ++ ".db")) :=
  C3_resubmit_preserves_storage
    ⟨false, [("f", ([], ⟨false, "f.db"⟩))], [("f.db", [("a", Json.num 1)])]⟩
    "f" [.get "a"] [("a", Json.num 1)] rfl rfl

/-- C6: a script whose evaluation ends in an uncaught error makes run_js
yield JsError carrying the script error message and no result text, and
into_response surfaces a JsError to the caller with its message while every
other failure kind — storage (SqliteError), lock (LockPoisoned), runtime
construction (DenoError), serialization (V8SerialisationError) — is
reported only as the opaque internal-server-error body. -/
theorem C6_script_error_and_opaque_failures :
    (∀ (name : String) (body : Script) (db : DBHandle) (files : Files)
       (m : String) (tblFin : KvTable),
       evalScript db.poisoned body ((alookup files db.file).getD []) = (.error m, tblFin) →
       (run_js name body db files).1 = .error (.JsError m))
    ∧ (∀ m, into_response (.JsError m) = (200, "error evaluating function: " ++ m))
    ∧ (∀ m, into_response (.SqliteError m) = (500, "internal server error"))
    ∧ (∀ m, into_response (.LockPoisoned m) = (500, "internal server error"))
    ∧ (∀ m, into_response (.DenoError m) = (500, "internal server error"))
    ∧ (∀ m, into_response (.V8SerialisationError m) = (500, "internal server error")) := by
  refine ⟨?_, fun m => rfl, fun m => rfl, fun m => rfl, fun m => rfl, fun m => rfl⟩
  intro name body db files m tblFin heval
  simp [run_js, heval]

/-- C6 witness: a script that throws boom yields JsError boom from run_js,
the response carries the message, and a storage failure is reported
opaquely. -/
theorem C6_script_error_and_opaque_failures_witness :
    (run_js "f" [.throwErr "boom"] ⟨false, "f.db"⟩ []).1 = .error (.JsError "boom")
    ∧ into_response (.JsError "boom") = (200, "error evaluating function: boom")
    ∧ into_response (.SqliteError "disk gone") = (500, "internal server error") :=
  ⟨C6_script_error_and_opaque_failures.1 "f" [.throwErr "boom"] ⟨false, "f.db"⟩ [] "boom" [] rfl,
   C6_script_error_and_opaque_failures.2.1 "boom",
   C6_script_error_and_opaque_failures.2.2.1 "disk gone"⟩

/-- C7: the sandbox binding set(key, value) returns the original value to
the script caller (the comma expression in the bootstrap), in addition to
writing the canonical encoding of the value and replacing any prior value
stored under that key. -/
theorem C7_set_returns_original (k : String) (v : JsValue) (j : Json) (tbl : KvTable)
    (hser : jsonStringify v = .ok (some j)) :
    evalExpr false (.set k (.litv v)) tbl = (.ok v, aupsert tbl k j)
    ∧ alookup (aupsert tbl k j) k = some j := by
  constructor
  · simp [evalExpr, hser, op_kv_set]
  · exact alookup_aupsert_self tbl k j

/-- C7 witness: setting k to 5 over a table whose prior value for k is the
string old returns 5 to the script and the table now holds 5 under k. -/
theorem C7_set_returns_original_witness :
    evalExpr false (.set "k" (.litv (.num 5))) [("k", Json.str "old")]
      = (.ok (.num 5), aupsert [("k", Json.str "old")] "k" (Json.num 5))
    ∧ alookup (aupsert [("k", Json.str "old")] "k" (Json.num 5)) "k" = some (Json.num 5) :=
  C7_set_returns_original "k" (.num 5) (.num 5) [("k", Json.str "old")] rfl

/-- C8: when the last top-level expression of a script evaluates to a
non-representable value — one containing a function value or a circular
reference — the serde_v8 conversion step fails and run_js yields
V8SerialisationError instead of any result text. -/
theorem C8_nonrepresentable_yields_serialization_error
    (name : String) (body : Script) (db : DBHandle) (files : Files)
    (v : JsValue) (tblFin : KvTable)
    (heval : evalScript db.poisoned body ((alookup files db.file).getD []) = (.ok v, tblFin))
    (hbad : containsBad v = true) :
    ∃ m, (run_js name body db files).1 = .error (.V8SerialisationError m) := by
  obtain ⟨m, hm⟩ := toJson_containsBad v hbad
  exact ⟨m, by simp [run_js, heval, hm]⟩

/-- C8 witness: a script whose last expression is an array containing a
function value makes run_js fail with V8SerialisationError. -/
theorem C8_nonrepresentable_yields_serialization_error_witness :
    ∃ m, (run_js "f" [.litv (.arr [.func])] ⟨false, "f.db"⟩ []).1
      = .error (.V8SerialisationError m) :=
  C8_nonrepresentable_yields_serialization_error "f" [.litv (.arr [.func])]
    ⟨false, "f.db"⟩ [] (.arr [.func]) [] rfl rfl

/-- C9: a poisoned lock is always converted into a reported error rather
than silent corruption or a crash: with a poisoned registry lock both
submit and execute return LockPoisoned (execute leaving the state
untouched), and with a poisoned storage-handle lock both kv ops report the
poison message, which reaches the script as a storage exception inside the
sandbox (here on the get binding). -/
theorem C9_poisoned_lock_reported :
    (∀ (st : AppState) (name : String) (body : Script), st.regPoisoned = true →
       handle_fn_submit st name body
         = (.error (.LockPoisoned poisonMsg),
            { st with files := if (alookup st.files (name ++ ".db")).isSome then st.files
                               else aupsert st.files (name ++ ".db") [] }))
    ∧ (∀ (st : AppState) (name : String), st.regPoisoned = true →
       handle_fn_execute st name = (.error (.LockPoisoned poisonMsg), st))
    ∧ (∀ (k : String) (j : Json) (tbl : KvTable), op_kv_set true k j tbl = .error poisonMsg)
    ∧ (∀ (k : String) (tbl : KvTable), op_kv_get true k tbl = .error poisonMsg)
    ∧ (∀ (k : String) (tbl : KvTable),
       evalExpr true (.get k) tbl = (.error poisonMsg, tbl)) := by
  refine ⟨?_, ?_, fun k j tbl => rfl, fun k tbl => rfl, fun k tbl => rfl⟩
  · intro st name body h
    simp [handle_fn_submit, h]
  · intro st name h
    simp [handle_fn_execute, h]

/-- C9 witness: with a poisoned registry lock, submit and execute on the
empty state report LockPoisoned; with a poisoned storage lock, the kv ops
and the sandbox get binding report the poison message. -/
theorem C9_poisoned_lock_reported_witness :
    handle_fn_submit ⟨true, [], []⟩ "f" []
      = (.error (.LockPoisoned poisonMsg),
         { AppState.mk true [] [] with
             files := if (alookup ([] : Files) ("f" ++ ".db")).isSome then ([] : Files)
                      else aupsert ([] : Files) ("f" ++ ".db") [] })
    ∧ handle_fn_execute ⟨true, [], []⟩ "f" = (.error (.LockPoisoned poisonMsg), ⟨true, [], []⟩)
    ∧ op_kv_set true "k" Json.null [] = .error poisonMsg
    ∧ op_kv_get true "k" [] = .error poisonMsg
    ∧ evalExpr true (.get "k") [] = (.error poisonMsg, []) :=
  ⟨C9_poisoned_lock_reported.1 ⟨true, [], []⟩ "f" [] rfl,
   C9_poisoned_lock_reported.2.1 ⟨true, [], []⟩ "f" rfl,
   C9_poisoned_lock_reported.2.2.1 "k" Json.null [],
   C9_poisoned_lock_reported.2.2.2.1 "k" [],
   C9_poisoned_lock_reported.2.2.2.2 "k" []⟩

/-- C2: the kv bindings round-trip. First conjunct: inside one invocation,
setting k to a serializable value whose canonical encoding is j and then
reading k returns the decoded canonical value (v after its encode/decode
round-trip). Second conjunct: across invocations of the same function — a
submit of a script that sets k, an execute, a re-submit of a script that
reads k, and a second execute — the read returns the round-tripped value
(reported as its canonical text). Third conjunct: reading a key that was
never set returns the null marker, not an error. -/
theorem C2_kv_roundtrip :
    (∀ (k : String) (v : JsValue) (j : Json) (tbl : KvTable),
       jsonStringify v = .ok (some j) →
       evalScript false [.set k (.litv v), .get k] tbl
         = (.ok (jsonParse j), aupsert tbl k j))
    ∧ (∀ (st : AppState) (name k : String) (v : JsValue) (j : Json),
       name.toList.all is_ascii_alphabetic = true →
       st.regPoisoned = false →
       jsonStringify v = .ok (some j) →
       (http_execute
         (http_submit
           (http_execute (http_submit st name [.set k (.litv v)]).2 name).2
           name [.get k]).2
         name).1 = (200, Json.print j))
    ∧ (∀ (k : String) (tbl : KvTable), alookup tbl k = none →
       evalExpr false (.get k) tbl = (.ok .null, tbl)) := by
  refine ⟨?_, ?_, ?_⟩
  · intro k v j tbl hser
    simp [evalScript, evalExpr, hser, op_kv_set, op_kv_get, alookup_aupsert_self]
  · intro st name k v j hname hreg hser
    have h1 : (http_submit st name [.set k (.litv v)]).2
        = { st with
            files := if (alookup st.files (name ++ ".db")).isSome then st.files
                     else aupsert st.files (name ++ ".db") [],
            registry := aupsert st.registry name
              ([.set k (.litv v)], DBHandle.mk false (name ++ ".db")) } := by
      simp [http_submit, from_request_parts_valid name hname,
        handle_fn_submit_ok st name _ hreg]
    rw [h1]
    rw [http_execute_state _ name [.set k (.litv v)] (DBHandle.mk false (name ++ ".db"))
      hname (by simp [hreg]) (by simp [alookup_aupsert_self])]
    rw [run_js_files]
    have heval1 : evalScript false [Expr.set k (.litv v)]
        ((alookup st.files (name ++ ".db")).getD [])
        = (.ok v, aupsert ((alookup st.files (name ++ ".db")).getD []) k j) := by
      simp [evalScript, evalExpr, hser, op_kv_set]
    simp only [alookup_open_getD, heval1]
    rw [http_submit_existing _ name [.get k] hname (by simp [hreg])
      (by simp [alookup_aupsert_self])]
    simp [http_execute, from_request_parts_valid name hname, handle_fn_execute, hreg,
      run_js, evalScript, evalExpr, op_kv_get, alookup_aupsert_self, toJson_jsonParse]
  · intro k tbl habsent
    simp [evalExpr, op_kv_get, habsent]

/-- C2 witness: on the empty state under the name fn, submitting a script
setting key k to the object with field a holding 3, executing, re-submitting
a script reading k, and executing again answers the canonical text of the
stored object; within one invocation the set-then-get script returns the
round-tripped value; and a get on a never-set key returns null. -/
theorem C2_kv_roundtrip_witness :
    (http_execute
      (http_submit
        (http_execute
          (http_submit ⟨false, [], []⟩ "fn"
            [.set "k" (.litv (.obj [("a", .num 3)]))]).2 "fn").2
        "fn" [.get "k"]).2
      "fn").1 = (200, Json.print (Json.obj [("a", Json.num 3)]))
    ∧ evalScript false [.set "k" (.litv (.num 9)), .get "k"] []
        = (.ok (jsonParse (Json.num 9)), aupsert [] "k" (Json.num 9))
    ∧ evalExpr false (.get "missing") [] = (.ok .null, []) :=
  ⟨C2_kv_roundtrip.2.1 ⟨false, [], []⟩ "fn" "k" (.obj [("a", .num 3)])
      (Json.obj [("a", Json.num 3)]) rfl rfl rfl,
   C2_kv_roundtrip.1 "k" (.num 9) (Json.num 9) [] rfl,
   C2_kv_roundtrip.2.2 "missing" [] rfl⟩

end ServerlessRuntime
